import Mathlib

/-!
Verification of the pattern submission pipeline: the entry validator
(`validate-pattern.js`), the reviewer notifier (`notify-reviewers.js`) and
the change-detection script (`detect-changed-patterns.sh`).  The JavaScript
and shell sources are shallowly embedded as pure Lean functions; the
filesystem and the third-party schema engine (ajv) are modelled as explicit
parameters of each entry.
-/

/-! ## Entry validator: data model -/

/-- One element of `implementation.code_snippets` in `pattern.yaml`. -/
structure Snippet where
  file : String
  deriving Repr, DecidableEq

/-- The `implementation` object of `pattern.yaml` (only the field the
validator reads). -/
structure Implementation where
  code_snippets : Option (List Snippet)
  deriving Repr, DecidableEq

/-- The parsed `pattern.yaml` record, restricted to the fields the validator
and the notifier consult.  `architecture_diagram` may be the empty string
(JavaScript treats it as falsy, skipping the check). -/
structure PatternData where
  category : Option String
  architecture_diagram : Option String
  implementation : Option Implementation
  deriving Repr, DecidableEq

/-- What the validator observes about one entry directory: results of the
filesystem calls, of `yaml.load`, of `JSON.parse` on the schema, and of the
ajv validation (`validate.errors` as (field, message) pairs; `[]` means the
record is schema-valid).  `fileExists rel` models
`fs.existsSync(path.join(patternDir, rel))`. -/
structure Entry where
  patternId : String
  yamlExists : Bool
  yamlSize : Nat
  readmeExists : Bool
  readmeSize : Nat
  readmeContent : String
  diagramsExists : Bool
  diagramsIsDir : Bool
  yamlParse : Except String PatternData
  schemaExists : Bool
  schemaParse : Except String Unit
  ajvErrors : List (String × String)
  fileExists : String → Bool

/-! ## Entry validator: kebab-case regex `^[a-z0-9]+(?:-[a-z0-9]+)*$` -/

/-- Character class `[a-z0-9]`. -/
def isLowerAlnum (c : Char) : Bool :=
  (('a' ≤ c) && (c ≤ 'z')) || (('0' ≤ c) && (c ≤ '9'))

mutual

/-- Acceptance of `[a-z0-9]+(?:-[a-z0-9]+)*` from the start of the input:
at least one alphanumeric must come first. -/
def kebabAux : List Char → Bool
  | [] => false
  | c :: rest => isLowerAlnum c && kebabCont rest

/-- State after at least one alphanumeric has been read: accepts
`[a-z0-9]*(?:-[a-z0-9]+)*`. -/
def kebabCont : List Char → Bool
  | [] => true
  | c :: rest => if c = '-' then kebabAux rest else isLowerAlnum c && kebabCont rest

end

/-- `kebabCaseRegex.test(patternId)` from the source. -/
def kebabCaseTest (s : String) : Bool := kebabAux s.data

/-! ## Entry validator: the four phases

Each phase returns the flag the JavaScript method returns together with the
list of messages pushed onto `this.errors` (resp. `this.warnings`), in
order. -/

/-- `PatternValidator.validatePatternId` applied to the final path segment
(`path.basename(patternDir)`). -/
def validatePatternId (patternId : String) : Bool × List String :=
  if kebabCaseTest patternId then
    (true, [])
  else
    (false, [s!"Pattern ID \"{patternId}\" does not follow kebab-case naming convention. Use lowercase letters, numbers, and hyphens only (e.g., \"my-pattern-name\")."])

/-- `PatternValidator.validateRequiredFiles`: pattern.yaml, README.md must
exist and be non-empty; diagrams must exist and be a directory. -/
def validateRequiredFiles (e : Entry) : Bool × List String :=
  let fYaml : List String :=
    if ¬ e.yamlExists then ["Required file missing: pattern.yaml"]
    else if e.yamlSize = 0 then ["Required file is empty: pattern.yaml"]
    else []
  let fReadme : List String :=
    if ¬ e.readmeExists then ["Required file missing: README.md"]
    else if e.readmeSize = 0 then ["Required file is empty: README.md"]
    else []
  let fDiagrams : List String :=
    if ¬ e.diagramsExists then ["Required directory missing: diagrams/"]
    else if ¬ e.diagramsIsDir then ["diagrams exists but is not a directory"]
    else []
  let errs := fYaml ++ fReadme ++ fDiagrams
  (errs.isEmpty, errs)

/-- The `code_snippets` loop of `validatePatternYaml`: returns `false` with
one error at the first snippet file that does not exist. -/
def checkSnippets (fe : String → Bool) : List Snippet → Bool × List String
  | [] => (true, [])
  | s :: rest =>
    if fe s.file then checkSnippets fe rest
    else (false, ["Code snippet file not found: " ++ s.file])

/-- The `implementation && implementation.code_snippets` guard followed by
the snippet loop. -/
def snippetPhase (fe : String → Bool) (d : PatternData) : Bool × List String :=
  match d.implementation with
  | some impl =>
    match impl.code_snippets with
    | some snips => checkSnippets fe snips
    | none => (true, [])
  | none => (true, [])

/-- The referenced-files part of `validatePatternYaml`: architecture diagram
first (skipped when absent or the empty string, which is falsy), then the
code snippets; it returns at the first missing target. -/
def crossRefCheck (fe : String → Bool) (d : PatternData) : Bool × List String :=
  match d.architecture_diagram with
  | some p =>
    if p = "" then snippetPhase fe d
    else if fe p then snippetPhase fe d
    else (false, ["Architecture diagram not found: " ++ p])
  | none => snippetPhase fe d

/-- `PatternValidator.validatePatternYaml`: existence, YAML parse, schema
load, ajv validation, then the cross-reference check. -/
def validatePatternYaml (e : Entry) : Bool × List String :=
  if ¬ e.yamlExists then (false, ["pattern.yaml not found"])
  else
    match e.yamlParse with
    | Except.error msg => (false, ["Failed to parse pattern.yaml: " ++ msg])
    | Except.ok d =>
      if ¬ e.schemaExists then (false, ["JSON Schema not found at schemas/pattern-schema.json"])
      else
        match e.schemaParse with
        | Except.error msg => (false, ["Failed to load JSON Schema: " ++ msg])
        | Except.ok _ =>
          if ¬ e.ajvErrors.isEmpty then
            (false, "pattern.yaml does not conform to JSON Schema:" ::
              e.ajvErrors.map (fun ae => s!"  - {ae.fst}: {ae.snd}"))
          else
            crossRefCheck e.fileExists d

/-- Does `pat` occur at the head of the second list? -/
def leadsWith : List Char → List Char → Bool
  | [], _ => true
  | _ :: _, [] => false
  | p :: ps, c :: cs => p = c && leadsWith ps cs

/-- Substring occurrence test, modelling JavaScript `String.includes`. -/
def hasSub (pat : List Char) : List Char → Bool
  | [] => leadsWith pat []
  | c :: cs => leadsWith pat (c :: cs) || hasSub pat cs

/-- Lowercasing, modelling JavaScript `String.toLowerCase`. -/
def toLowerStr (s : String) : String := ⟨s.data.map Char.toLower⟩

/-- The `recommendedSections` constant of `validateReadme`. -/
def recommendedSections : List String :=
  ["Overview", "Architecture", "Implementation", "Prerequisites"]

/-- `PatternValidator.validateReadme`: warnings only.  A README shorter than
100 characters yields the too-short warning and returns at once; otherwise
the missing recommended sections (case-insensitive substring test) are
collected into at most one warning. -/
def validateReadme (e : Entry) : Bool × List String :=
  if ¬ e.readmeExists then (false, [])
  else
    let content := e.readmeContent
    if content.length < 100 then
      (true, ["README.md seems too short. Consider adding more documentation."])
    else
      let missingSections := recommendedSections.filter
        (fun sec => ¬ hasSub (toLowerStr sec).data (toLowerStr content).data)
      if ¬ missingSections.isEmpty then
        (true, ["README.md is missing recommended sections: " ++ String.intercalate ", " missingSections])
      else
        (true, [])

/-- The outcome of `PatternValidator.validate`: the value returned (which
`main` passes to `process.exit`) together with the accumulated `this.errors`
and `this.warnings`. -/
structure Verdict where
  exitCode : Nat
  errors : List String
  warnings : List String
  deriving Repr, DecidableEq

/-- `PatternValidator.validate`: runs the four steps in order, accumulating
messages; returns 0 when no errors were recorded (even with warnings) and 1
otherwise. -/
def validate (e : Entry) : Verdict :=
  let r1 := validatePatternId e.patternId
  let r2 := validateRequiredFiles e
  let r3 := validatePatternYaml e
  let r4 := validateReadme e
  let errors := r1.snd ++ r2.snd ++ r3.snd
  let warnings := r4.snd
  { exitCode := if errors.isEmpty then 0 else 1
    errors := errors
    warnings := warnings }

/-! ## Reviewer notifier (`notify-reviewers.js`) -/

/-- One entry of the `SME_MAPPING` constant. -/
structure SME where
  reviewers : List String
  team : String
  description : String
  deriving Repr, DecidableEq

/-- The static `SME_MAPPING` constant, as a lookup by category. -/
def SME_MAPPING (c : String) : Option SME :=
  if c = "automation" then
    some ⟨["automation-sme1", "automation-sme2"], "automation-team", "Automation & Workflows"⟩
  else if c = "observability" then
    some ⟨["observability-sme1", "observability-sme2"], "observability-team", "Observability & Monitoring"⟩
  else if c = "security" then
    some ⟨["security-sme1", "security-sme2"], "security-team", "Security & Compliance"⟩
  else if c = "monitoring" then
    some ⟨["monitoring-sme1", "monitoring-sme2"], "monitoring-team", "System Monitoring"⟩
  else if c = "integration" then
    some ⟨["integration-sme1", "integration-sme2"], "integration-team", "System Integration"⟩
  else if c = "data-protection" then
    some ⟨["data-protection-sme1", "data-protection-sme2"], "data-protection-team", "Data Protection & Recovery"⟩
  else none

/-- The `FALLBACK_REVIEWERS` constant. -/
def FALLBACK_REVIEWERS : List String := ["pattern-maintainer1", "pattern-maintainer2"]

/-- What `getPatternCategory` observes about one pattern directory:
`pattern.yaml` missing, unparseable, or parsed with an optional `category`
field (which may be the empty string, falsy in JavaScript). -/
inductive YamlOutcome where
  | missing
  | parseError (msg : String)
  | parsed (category : Option String)

/-- The notifier's view of the filesystem: the outcome of reading
`<dir>/pattern.yaml` for each directory. -/
def NotifierFS := String → YamlOutcome

/-- `ReviewerNotifier.getPatternCategory`: `null` when the file is missing
or unparseable, else `patternData.category || null` (so an absent or empty
category becomes `null`). -/
def getPatternCategory (fs : NotifierFS) (dir : String) : Option String :=
  match fs dir with
  | YamlOutcome.missing => none
  | YamlOutcome.parseError _ => none
  | YamlOutcome.parsed cat =>
    match cat with
    | some c => if c = "" then none else some c
    | none => none

/-- `ReviewerNotifier.getReviewersForCategory`: fallback when the category
is `null` or has no SME mapping, else the mapped reviewers (the mapping's
`reviewers` arrays are always present, so `sme.reviewers || FALLBACK` is
their value). -/
def getReviewersForCategory (category : Option String) : List String :=
  match category with
  | none => FALLBACK_REVIEWERS
  | some c =>
    match SME_MAPPING c with
    | none => FALLBACK_REVIEWERS
    | some sme => sme.reviewers

/-- One element pushed onto `this.patterns` by `processPatterns`. -/
structure PatternAssignment where
  directory : String
  category : String
  reviewers : List String
  deriving Repr, DecidableEq

/-- The mutable fields of a `ReviewerNotifier` instance.  The JavaScript
`Set`/`Map` preserve insertion order, so they are modelled as lists without
duplicates (first occurrence kept). -/
structure NotifierState where
  allReviewers : List String
  categoryReviewers : List (String × List String)
  patterns : List PatternAssignment
  deriving Repr, DecidableEq

/-- `new ReviewerNotifier()`. -/
def initialNotifier : NotifierState := ⟨[], [], []⟩

/-- `Set.add`: append only when absent (insertion order preserved). -/
def addUnique (l : List String) (x : String) : List String :=
  if x ∈ l then l else l ++ [x]

/-- The `categoryReviewers` update of one loop iteration: create the
category's set if absent, then add every reviewer to it. -/
def updateCatRev (m : List (String × List String)) (cat : String) (revs : List String) :
    List (String × List String) :=
  let m1 := if (m.lookup cat).isSome then m else m ++ [(cat, [])]
  m1.map (fun kv => if kv.fst = cat then (kv.fst, revs.foldl addUnique kv.snd) else kv)

/-- One iteration of the `processPatterns` loop: push the assignment (with
the `'unknown'` label when the category is `null`), and track reviewers only
when the category is truthy. -/
def processOne (s : NotifierState) (fs : NotifierFS) (dir : String) : NotifierState :=
  let category := getPatternCategory fs dir
  let reviewers := getReviewersForCategory category
  let patterns := s.patterns ++ [⟨dir, category.getD "unknown", reviewers⟩]
  match category with
  | none => { s with patterns := patterns }
  | some c =>
    { allReviewers := reviewers.foldl addUnique s.allReviewers
      categoryReviewers := updateCatRev s.categoryReviewers c reviewers
      patterns := patterns }

/-- `ReviewerNotifier.processPatterns` (the empty input returns early). -/
def processPatterns (s : NotifierState) (fs : NotifierFS) (dirs : List String) : NotifierState :=
  if dirs.isEmpty then s
  else dirs.foldl (fun st d => processOne st fs d) s

/-- `ReviewerNotifier.getCategoryIcon`. -/
def getCategoryIcon (category : String) : String :=
  if category = "automation" then "🤖"
  else if category = "observability" then "👁️"
  else if category = "security" then "🔒"
  else if category = "monitoring" then "📊"
  else if category = "integration" then "🔗"
  else if category = "data-protection" then "💾"
  else "📦"

/-- The `patternsByCategory` map built by `generateComment`: groups in
first-appearance order of category, each group in encounter order. -/
def groupByCategory (ps : List PatternAssignment) : List (String × List PatternAssignment) :=
  ps.foldl
    (fun m p =>
      if (m.lookup p.category).isSome then
        m.map (fun kv => if kv.fst = p.category then (kv.fst, kv.snd ++ [p]) else kv)
      else m ++ [(p.category, [p])])
    []

/-- The fixed review-checklist tail appended to every comment. -/
def checklistText : String :=
  "---\n\n" ++
  "### 📝 Review Checklist\n\n" ++
  "Please ensure the following before approving:\n\n" ++
  "- [ ] Pattern follows repository structure and naming conventions\n" ++
  "- [ ] `pattern.yaml` contains all required fields and valid data\n" ++
  "- [ ] `README.md` provides clear implementation guidance\n" ++
  "- [ ] Architecture diagram is included and clear\n" ++
  "- [ ] Code examples are correct and follow best practices\n" ++
  "- [ ] Security considerations are documented\n" ++
  "- [ ] Pattern is categorized correctly\n\n" ++
  "**Note:** Automated validation has already checked basic requirements. " ++
  "Please focus on technical accuracy, completeness, and alignment with organizational standards.\n"

/-- The section emitted for one category group. -/
def categorySection (kv : String × List PatternAssignment) : String :=
  let category := kv.fst
  let sme := SME_MAPPING category
  let categoryName := match sme with | some m => m.description | none => category
  let icon := getCategoryIcon category
  let revPart := match sme with
    | some m =>
      "**Reviewers:** " ++ String.intercalate ", " (m.reviewers.map (fun r => "@" ++ r)) ++ "\n\n"
    | none => ""
  s!"### {icon} {categoryName}\n\n" ++ revPart ++
    "**Patterns:**\n" ++ String.join (kv.snd.map (fun p => "- `" ++ p.directory ++ "`\n")) ++ "\n"

/-- `ReviewerNotifier.generateComment`: `null` when no patterns were
processed, else header, one section per category group, and the checklist. -/
def generateComment (s : NotifierState) : Option String :=
  if s.patterns.isEmpty then none
  else
    some
      ("## 👥 Pattern Review Assignments\n\n" ++
       "The following Subject Matter Experts (SMEs) have been identified for review:\n\n" ++
       String.join ((groupByCategory s.patterns).map categorySection) ++
       checklistText)

/-- The object returned by `ReviewerNotifier.generateOutput` (and by `run`):
`Array.from(this.allReviewers)`, `this.patterns`, and the comment. -/
structure NotifierOutput where
  reviewers : List String
  patterns : List PatternAssignment
  comment : Option String
  deriving Repr, DecidableEq

/-- `ReviewerNotifier.generateOutput`. -/
def generateOutput (s : NotifierState) : NotifierOutput :=
  ⟨s.allReviewers, s.patterns, generateComment s⟩

/-- `ReviewerNotifier.run`: process the directories, then produce the
output. -/
def notifierRun (fs : NotifierFS) (dirs : List String) : NotifierOutput :=
  generateOutput (processPatterns initialNotifier fs dirs)

/-! ## Change detection (`detect-changed-patterns.sh`) -/

/-- Prefix test on strings (anchored grep `^...` match). -/
def strStarts (s pre : String) : Bool := leadsWith pre.data s.data

/-- The grep chain applied to each changed file path: `-v '^\.github/'`,
`-v '^schemas/'`, `-v '^categories\.config\.json$'`, `-v '^pattern-template/'`,
`-v '^README\.md$'`, `-v '^LICENSE'`, `-v '^\.'`. -/
def keepFile (p : String) : Bool :=
  ¬ strStarts p ".github/" && ¬ strStarts p "schemas/" &&
  p ≠ "categories.config.json" && ¬ strStarts p "pattern-template/" &&
  p ≠ "README.md" && ¬ strStarts p "LICENSE" && ¬ strStarts p "."

/-- `cut -d'/' -f1`: everything before the first `/` (a line without `/`
passes through whole). -/
def firstSeg (p : String) : String := ⟨p.data.takeWhile (fun c => c ≠ '/')⟩

/-- Insertion into a sorted list of strings. -/
def insSorted (x : String) : List String → List String
  | [] => [x]
  | y :: ys => if x ≤ y then x :: y :: ys else y :: insSorted x ys

/-- Insertion sort on strings, modelling `sort`. -/
def sortStr (l : List String) : List String := l.foldr insSorted []

/-- `sort -u`: sort and drop duplicates. -/
def sortU (l : List String) : List String := (sortStr l).dedup

/-- The `PATTERN_DIRS` pipeline: filter the file list, take first segments,
`sort -u`, drop empty lines. -/
def patternDirsOf (files : List String) : List String :=
  ((sortU ((files.filter keepFile).map firstSeg)).filter (fun s => s ≠ ""))

/-- What the script writes to `GITHUB_OUTPUT`, plus its exit status. -/
structure DetectResult where
  changed_patterns : List String
  pattern_count : Nat
  exitCode : Nat
  deriving Repr, DecidableEq

/-- The whole script given the `git diff --name-only` output and the
directory test `[ -d "$dir" ]` at the head revision: both empty-result
branches exit 0 with empty outputs; otherwise the surviving directories are
emitted with their count. -/
def detectChangedPatterns (files : List String) (isDir : String → Bool) : DetectResult :=
  let pdirs := patternDirsOf files
  if pdirs.isEmpty then ⟨[], 0, 0⟩
  else
    let valid := pdirs.filter (fun d => isDir d && d ≠ ".")
    if valid.isEmpty then ⟨[], 0, 0⟩
    else ⟨valid, valid.length, 0⟩

/-! ## Specification-side definitions

These restate parts of the spec in its own words, to be compared with the
source embeddings above. -/

/-- Splitting a character list at `'-'` (the separators of the kebab-case
pattern). -/
def splitDash : List Char → List (List Char)
  | [] => [[]]
  | c :: rest =>
    if c = '-' then [] :: splitDash rest
    else
      match splitDash rest with
      | [] => [[c]]
      | p :: ps => (c :: p) :: ps

/-- A dash-separated part is admissible when it is non-empty and wholly
lowercase alphanumeric. -/
def segOk (p : List Char) : Bool := ¬ p.isEmpty && p.all isLowerAlnum

/-- The spec's reading of `^[a-z0-9]+(-[a-z0-9]+)*$`: lowercase
alphanumeric runs separated by single hyphens, no leading/trailing/double
hyphens — i.e. every dash-separated part is non-empty and alphanumeric. -/
def kebabSpec (s : String) : Bool := (splitDash s.data).all segOk

/-- The recommended sections absent from a README, per the spec's
case-insensitive substring test. -/
def missingSectionsOf (content : String) : List String :=
  recommendedSections.filter (fun sec => ¬ hasSub (toLowerStr sec).data (toLowerStr content).data)

/-- The architecture-diagram reference of a record, when present and
non-empty (the validator's truthiness guard). -/
def diagRefs (d : PatternData) : List String :=
  match d.architecture_diagram with
  | some p => if p = "" then [] else [p]
  | none => []

/-- The code-snippet file references of a record. -/
def snipFiles (d : PatternData) : List String :=
  match d.implementation with
  | some impl =>
    match impl.code_snippets with
    | some snips => snips.map (fun s => s.file)
    | none => []
  | none => []

/-- All relative paths a parsed record references: the architecture diagram
(when present and non-empty) and every code snippet's `file`. -/
def refsOf (d : PatternData) : List String := diagRefs d ++ snipFiles d

/-- The error message the cross-reference check produces for a missing
reference `r`: the diagram message when `r` is the referenced diagram, the
snippet message otherwise. -/
def crossRefMsg (d : PatternData) (r : String) : String :=
  match d.architecture_diagram with
  | some p =>
    if p ≠ "" ∧ p = r then "Architecture diagram not found: " ++ r
    else "Code snippet file not found: " ++ r
  | none => "Code snippet file not found: " ++ r

/-- The assignment `processPatterns` produces for one directory. -/
def assignFor (fs : NotifierFS) (d : String) : PatternAssignment :=
  let category := getPatternCategory fs d
  ⟨d, category.getD "unknown", getReviewersForCategory category⟩

/-- The claim's aggregate: the union of the reviewer lists of all per-entry
assignments, in order of first appearance, without duplicates. -/
def unionReviewers (ps : List PatternAssignment) : List String :=
  ps.foldl (fun acc p => p.reviewers.foldl addUnique acc) []

/-- The aggregate the code actually builds: only entries whose category was
present contribute their reviewers. -/
def aggReviewers (fs : NotifierFS) (dirs : List String) : List String :=
  dirs.foldl
    (fun acc d =>
      match getPatternCategory fs d with
      | none => acc
      | some c => (getReviewersForCategory (some c)).foldl addUnique acc)
    []

/-- The denylist names of the change-detection script, read as first-segment
prefixes (the spec: "a path whose first segment matches a denylist prefix
exactly or by prefix match → excluded regardless of depth"). -/
def denylistSegs : List String :=
  [".github", "schemas", "categories.config.json", "pattern-template", "README.md", "LICENSE", "."]

/-- The claim's change detection: first segments of the differing paths,
empty segments removed, segments matching a denylist prefix removed,
segments that are not existing directories removed, deduplicated and
sorted. -/
def claimChangedEntries (files : List String) (isDir : String → Bool) : List String :=
  let segs := files.map firstSeg
  let s1 := segs.filter (fun s => s ≠ "")
  let s2 := s1.filter (fun s => ¬ denylistSegs.any (fun d => strStarts s d))
  let s3 := s2.filter (fun s => isDir s)
  sortStr s3.dedup

/-! ## Concrete fixtures -/

/-- An entry whose `pattern.yaml` exists but fails to parse, with an
existing one-character README. -/
def c1entry : Entry :=
  { patternId := "sample-pattern"
    yamlExists := true, yamlSize := 10
    readmeExists := true, readmeSize := 1, readmeContent := "x"
    diagramsExists := true, diagramsIsDir := true
    yamlParse := Except.error "bad indentation"
    schemaExists := true, schemaParse := Except.ok ()
    ajvErrors := []
    fileExists := fun _ => true }

/-- A schema-valid record referencing two code snippets. -/
def c4data : PatternData :=
  ⟨some "automation", none,
   some ⟨some [⟨"implementation/missing1.js"⟩, ⟨"implementation/missing2.js"⟩]⟩⟩

/-- An entry with a schema-valid record whose two snippet references are
both dangling. -/
def c4entry : Entry :=
  { patternId := "sample-pattern"
    yamlExists := true, yamlSize := 10
    readmeExists := true, readmeSize := 1, readmeContent := "x"
    diagramsExists := true, diagramsIsDir := true
    yamlParse := Except.ok c4data
    schemaExists := true, schemaParse := Except.ok ()
    ajvErrors := []
    fileExists := fun _ => false }

/-- An otherwise valid entry for which the schema registry file is
missing. -/
def c5entry : Entry :=
  { patternId := "sample-pattern"
    yamlExists := true, yamlSize := 10
    readmeExists := true, readmeSize := 1, readmeContent := "x"
    diagramsExists := true, diagramsIsDir := true
    yamlParse := Except.ok ⟨some "automation", none, none⟩
    schemaExists := false, schemaParse := Except.ok ()
    ajvErrors := []
    fileExists := fun _ => true }

/-- An entry whose README exists, is below the length threshold, and lacks
every recommended section heading. -/
def c6entry : Entry :=
  { patternId := "sample-pattern"
    yamlExists := true, yamlSize := 10
    readmeExists := true, readmeSize := 1, readmeContent := "x"
    diagramsExists := true, diagramsIsDir := true
    yamlParse := Except.ok ⟨some "automation", none, none⟩
    schemaExists := true, schemaParse := Except.ok ()
    ajvErrors := []
    fileExists := fun _ => true }

/-- A filesystem in which every `pattern.yaml` parses with the unrecognized
category `"custom"`. -/
def c2fs : NotifierFS := fun _ => YamlOutcome.parsed (some "custom")

/-- A filesystem in which every `pattern.yaml` parses but has no `category`
field. -/
def c3fs : NotifierFS := fun _ => YamlOutcome.parsed none

/-- A filesystem mixing an absent category, a mapped category and an
unmapped one. -/
def c2fsMixed : NotifierFS := fun dir =>
  if dir = "a" then YamlOutcome.parsed none
  else if dir = "b" then YamlOutcome.parsed (some "security")
  else YamlOutcome.parsed (some "zzz")

/-- A diff consisting of one file inside a directory named `README.md`. -/
def c9files : List String := ["README.md/foo.js"]

/-- A head revision where `README.md` is a directory. -/
def c9isDir : String → Bool := fun s => s == "README.md"

/-- A schema-valid record with an existing diagram, one existing snippet and
exactly one dangling snippet reference. -/
def c4wData : PatternData :=
  ⟨some "automation", some "diagrams/architecture.png",
   some ⟨some [⟨"implementation/handler.js"⟩, ⟨"implementation/missing.js"⟩]⟩⟩

/-- An entry realising the "dangling reference" scenario: every referenced
file exists except `implementation/missing.js`. -/
def c4wEntry : Entry :=
  { patternId := "sample-pattern"
    yamlExists := true, yamlSize := 10
    readmeExists := true, readmeSize := 1, readmeContent := "x"
    diagramsExists := true, diagramsIsDir := true
    yamlParse := Except.ok c4wData
    schemaExists := true, schemaParse := Except.ok ()
    ajvErrors := []
    fileExists := fun p => p != "implementation/missing.js" }

/-- A processed-assignment list shared by two notifier states. -/
def c8ps : List PatternAssignment :=
  [⟨"lambda-sqs-processing", "automation", ["automation-sme1", "automation-sme2"]⟩]

/-! ## Helper lemmas -/

theorem splitDash_ne_nil (cs : List Char) : splitDash cs ≠ [] := by
  induction cs with
  | nil => simp [splitDash]
  | cons c rest ih =>
    unfold splitDash
    by_cases hc : c = '-'
    · simp [hc]
    · simp only [hc, if_false]
      cases h : splitDash rest with
      | nil => simp
      | cons p ps => simp

theorem kebab_split (cs : List Char) :
    kebabAux cs = (splitDash cs).all segOk ∧
    kebabCont cs =
      (((splitDash cs).headD []).all isLowerAlnum && ((splitDash cs).tail).all segOk) := by
  induction cs with
  | nil => exact ⟨by simp [kebabAux, splitDash, segOk], by simp [kebabCont, splitDash]⟩
  | cons c rest ih =>
    have hdash : isLowerAlnum '-' = false := by decide
    by_cases hc : c = '-'
    · subst hc
      refine ⟨?_, ?_⟩
      · simp [kebabAux, splitDash, segOk, hdash]
      · simp [kebabCont, splitDash, ih.1]
    · obtain ⟨p, ps, hps⟩ : ∃ p ps, splitDash rest = p :: ps := by
        cases h : splitDash rest with
        | nil => exact absurd h (splitDash_ne_nil rest)
        | cons p ps => exact ⟨p, ps, rfl⟩
      have hsplit : splitDash (c :: rest) = (c :: p) :: ps := by
        unfold splitDash
        simp [hc, hps]
      have hcont := ih.2
      rw [hps] at hcont
      simp only [List.headD_cons, List.tail_cons] at hcont
      refine ⟨?_, ?_⟩
      · show (isLowerAlnum c && kebabCont rest) = _
        rw [hcont, hsplit]
        simp [segOk, Bool.and_assoc]
      · show (if c = '-' then kebabAux rest else isLowerAlnum c && kebabCont rest) = _
        rw [if_neg hc, hcont, hsplit]
        simp [Bool.and_assoc]

theorem kebabCaseTest_eq_spec (s : String) : kebabCaseTest s = kebabSpec s :=
  (kebab_split s.data).1

theorem checkSnippets_spec (fe : String → Bool) (snips : List Snippet) :
    checkSnippets fe snips =
      match (snips.map (fun s => s.file)).find? (fun p => !(fe p)) with
      | none => (true, [])
      | some r => (false, ["Code snippet file not found: " ++ r]) := by
  induction snips with
  | nil => simp [checkSnippets]
  | cons s rest ih =>
    by_cases h : fe s.file
    · simp [checkSnippets, h, ih]
    · simp [checkSnippets, h]

theorem snippetPhase_spec (fe : String → Bool) (d : PatternData) :
    snippetPhase fe d =
      match (snipFiles d).find? (fun p => !(fe p)) with
      | none => (true, [])
      | some r => (false, ["Code snippet file not found: " ++ r]) := by
  unfold snippetPhase snipFiles
  cases hI : d.implementation with
  | none => simp
  | some impl =>
    cases hC : impl.code_snippets with
    | none => simp [hC]
    | some snips => simp only [hC, checkSnippets_spec]

theorem crossRefCheck_spec (fe : String → Bool) (d : PatternData) :
    crossRefCheck fe d =
      match (refsOf d).find? (fun p => !(fe p)) with
      | none => (true, [])
      | some r => (false, [crossRefMsg d r]) := by
  have hs := snippetPhase_spec fe d
  cases harch : d.architecture_diagram with
  | none =>
    rw [show crossRefCheck fe d = snippetPhase fe d by unfold crossRefCheck; rw [harch], hs]
    have hrefs : refsOf d = snipFiles d := by simp [refsOf, diagRefs, harch]
    rw [hrefs]
    cases hf : (snipFiles d).find? (fun p => !(fe p)) <;> simp [crossRefMsg, harch]
  | some p =>
    by_cases hp : p = ""
    · subst hp
      rw [show crossRefCheck fe d = snippetPhase fe d by unfold crossRefCheck; rw [harch]; simp, hs]
      have hrefs : refsOf d = snipFiles d := by simp [refsOf, diagRefs, harch]
      rw [hrefs]
      cases hf : (snipFiles d).find? (fun q => !(fe q)) <;> simp [crossRefMsg, harch]
    · have hrefs : refsOf d = p :: snipFiles d := by simp [refsOf, diagRefs, harch, hp]
      by_cases hfe : fe p
      · rw [show crossRefCheck fe d = snippetPhase fe d by
          unfold crossRefCheck; rw [harch]; simp [hp, hfe], hs, hrefs]
        rw [List.find?_cons_of_neg _ (by simp [hfe])]
        cases hf : (snipFiles d).find? (fun q => !(fe q)) with
        | none => simp
        | some r =>
          have hr : fe r = false := by simpa using List.find?_some hf
          have hpr : ¬ (p ≠ "" ∧ p = r) := by
            rintro ⟨-, rfl⟩
            simp [hfe] at hr
          simp [crossRefMsg, harch, hpr]
      · rw [show crossRefCheck fe d = (false, ["Architecture diagram not found: " ++ p]) by
          unfold crossRefCheck; rw [harch]; simp [hp, hfe], hrefs]
        rw [List.find?_cons_of_pos _ (by simp [hfe])]
        simp [crossRefMsg, harch, hp]

theorem validate_errors (e : Entry) :
    (validate e).errors =
      (validatePatternId e.patternId).snd ++ (validateRequiredFiles e).snd ++
        (validatePatternYaml e).snd := rfl

theorem validate_warnings (e : Entry) : (validate e).warnings = (validateReadme e).snd := rfl

theorem validate_exit (e : Entry) :
    (validate e).exitCode = if (validate e).errors = [] then 0 else 1 := by
  show (if _ then 0 else 1) = _
  rw [validate_errors]
  by_cases h :
      (validatePatternId e.patternId).snd ++ (validateRequiredFiles e).snd ++
        (validatePatternYaml e).snd = [] <;>
    simp [h]

theorem exit_one_of_yaml_errors (e : Entry) (h : (validatePatternYaml e).snd ≠ []) :
    (validate e).exitCode = 1 := by
  rw [validate_exit, if_neg]
  rw [validate_errors]
  intro hc
  exact h (List.append_eq_nil.mp hc).2

theorem processOne_patterns (s : NotifierState) (fs : NotifierFS) (d : String) :
    (processOne s fs d).patterns = s.patterns ++ [assignFor fs d] := by
  cases hcat : getPatternCategory fs d <;> simp [processOne, hcat, assignFor]

theorem processOne_allReviewers (s : NotifierState) (fs : NotifierFS) (d : String) :
    (processOne s fs d).allReviewers =
      match getPatternCategory fs d with
      | none => s.allReviewers
      | some c => (getReviewersForCategory (some c)).foldl addUnique s.allReviewers := by
  cases hcat : getPatternCategory fs d <;> simp [processOne, hcat]

theorem foldl_processOne_patterns (fs : NotifierFS) (dirs : List String) (s : NotifierState) :
    (dirs.foldl (fun st d => processOne st fs d) s).patterns =
      s.patterns ++ dirs.map (assignFor fs) := by
  induction dirs generalizing s with
  | nil => simp
  | cons d rest ih => simp [List.foldl_cons, ih, processOne_patterns, List.append_assoc]

theorem foldl_processOne_allReviewers (fs : NotifierFS) (dirs : List String) (s : NotifierState) :
    (dirs.foldl (fun st d => processOne st fs d) s).allReviewers =
      dirs.foldl
        (fun acc d =>
          match getPatternCategory fs d with
          | none => acc
          | some c => (getReviewersForCategory (some c)).foldl addUnique acc)
        s.allReviewers := by
  induction dirs generalizing s with
  | nil => rfl
  | cons d rest ih =>
    rw [List.foldl_cons, List.foldl_cons, ih, processOne_allReviewers]

theorem processPatterns_patterns (fs : NotifierFS) (dirs : List String) :
    (processPatterns initialNotifier fs dirs).patterns = dirs.map (assignFor fs) := by
  unfold processPatterns
  by_cases h : dirs.isEmpty
  · rw [List.isEmpty_iff] at h
    simp [h, initialNotifier]
  · rw [if_neg h, foldl_processOne_patterns]
    simp [initialNotifier]

theorem addUnique_nodup (l : List String) (x : String) (h : l.Nodup) : (addUnique l x).Nodup := by
  unfold addUnique
  split
  · exact h
  · rename_i hx
    rw [List.nodup_append]
    refine ⟨h, List.nodup_singleton x, ?_⟩
    intro a ha hax
    rw [List.mem_singleton] at hax
    subst hax
    exact hx ha

theorem foldl_addUnique_nodup (xs acc : List String) (h : acc.Nodup) :
    (xs.foldl addUnique acc).Nodup := by
  induction xs generalizing acc with
  | nil => exact h
  | cons x rest ih => exact ih (addUnique acc x) (addUnique_nodup acc x h)

theorem aggReviewers_nodup_aux (fs : NotifierFS) (dirs : List String) (acc : List String)
    (h : acc.Nodup) :
    (dirs.foldl
      (fun acc d =>
        match getPatternCategory fs d with
        | none => acc
        | some c => (getReviewersForCategory (some c)).foldl addUnique acc)
      acc).Nodup := by
  induction dirs generalizing acc with
  | nil => exact h
  | cons d rest ih =>
    rw [List.foldl_cons]
    cases hcat : getPatternCategory fs d with
    | none => exact ih acc h
    | some c => exact ih _ (foldl_addUnique_nodup _ acc h)

theorem mem_insSorted (x a : String) (l : List String) :
    a ∈ insSorted x l ↔ a = x ∨ a ∈ l := by
  induction l with
  | nil => simp [insSorted]
  | cons y ys ih =>
    unfold insSorted
    split
    · simp
    · simp [ih]
      tauto

theorem mem_sortStr (a : String) (l : List String) : a ∈ sortStr l ↔ a ∈ l := by
  unfold sortStr
  induction l with
  | nil => simp
  | cons x xs ih => simp [List.foldr_cons, mem_insSorted, ih]

theorem sorted_insSorted (x : String) (l : List String) (h : l.Pairwise (· ≤ ·)) :
    (insSorted x l).Pairwise (· ≤ ·) := by
  induction l with
  | nil => simp [insSorted]
  | cons y ys ih =>
    rw [List.pairwise_cons] at h
    unfold insSorted
    split
    · rename_i hxy
      rw [List.pairwise_cons]
      refine ⟨?_, List.pairwise_cons.mpr h⟩
      intro b hb
      rcases List.mem_cons.mp hb with rfl | hb
      · exact hxy
      · exact le_trans hxy (h.1 b hb)
    · rename_i hxy
      rw [List.pairwise_cons]
      refine ⟨?_, ih h.2⟩
      intro b hb
      rcases (mem_insSorted x b ys).mp hb with rfl | hb
      · exact le_of_not_le hxy
      · exact h.1 b hb

theorem sorted_sortStr (l : List String) : (sortStr l).Pairwise (· ≤ ·) := by
  unfold sortStr
  induction l with
  | nil => simp
  | cons x xs ih => exact sorted_insSorted x _ ih

theorem mem_patternDirsOf (s : String) (files : List String) :
    s ∈ patternDirsOf files ↔
      s ≠ "" ∧ ∃ p, p ∈ files ∧ keepFile p = true ∧ firstSeg p = s := by
  unfold patternDirsOf sortU
  rw [List.mem_filter, List.mem_dedup, mem_sortStr, List.mem_map]
  constructor
  · rintro ⟨⟨p, hp, rfl⟩, hne⟩
    rw [List.mem_filter] at hp
    exact ⟨by simpa using hne, p, hp.1, hp.2, rfl⟩
  · rintro ⟨hne, p, hpf, hpk, rfl⟩
    exact ⟨⟨p, List.mem_filter.mpr ⟨hpf, hpk⟩, rfl⟩, by simpa using hne⟩

theorem detect_changed_eq (files : List String) (isDir : String → Bool) :
    (detectChangedPatterns files isDir).changed_patterns =
      (patternDirsOf files).filter (fun d => isDir d && d ≠ ".") := by
  dsimp only [detectChangedPatterns]
  split
  · rename_i h1
    rw [List.isEmpty_iff] at h1
    rw [h1]
    rfl
  · split
    · rename_i h2
      rw [List.isEmpty_iff] at h2
      exact h2.symm
    · rfl

/-! ## Claim theorems -/

/-- C1 (amended): for every entry whose metadata file exists but cannot be
parsed, the metadata phase records exactly the one fatal parse error, the
verdict is FAIL (exit code 1), and the cross-reference check is skipped; the
documentation heuristic check, however, still runs (its warnings are exactly
what `validateReadme` produces). -/
theorem c1_parse_failure_phases (e : Entry) (msg : String)
    (h1 : e.yamlExists = true) (h2 : e.yamlParse = Except.error msg) :
    validatePatternYaml e = (false, ["Failed to parse pattern.yaml: " ++ msg]) ∧
    (validate e).exitCode = 1 ∧
    (validate e).warnings = (validateReadme e).snd := by
  have hy : validatePatternYaml e = (false, ["Failed to parse pattern.yaml: " ++ msg]) := by
    unfold validatePatternYaml
    simp [h1, h2]
  exact ⟨hy, exit_one_of_yaml_errors e (by rw [hy]; simp), rfl⟩

/-- Witness for C1: the amended theorem applied to a concrete entry with an
unparseable metadata file. -/
theorem c1_parse_failure_phases_witness :
    validatePatternYaml c1entry = (false, ["Failed to parse pattern.yaml: bad indentation"]) ∧
    (validate c1entry).exitCode = 1 ∧
    (validate c1entry).warnings = (validateReadme c1entry).snd :=
  c1_parse_failure_phases c1entry "bad indentation" rfl rfl

/-- C1 counterexample: on an entry with an unparseable metadata file and a
short README, the run still emits the documentation-heuristic warning, so
phase 5 is not skipped as the claim states. -/
theorem c1_counterexample :
    (validate c1entry).errors = ["Failed to parse pattern.yaml: bad indentation"] ∧
    (validate c1entry).warnings =
      ["README.md seems too short. Consider adding more documentation."] ∧
    (validate c1entry).warnings ≠ [] := by
  refine ⟨?_, ?_, ?_⟩ <;> decide

/-- C2 (amended): routing always produces one assignment per entry, in
order; an absent category or unparseable record yields the fallback
reviewers and the sentinel "unknown" label; a present but unrecognized
category yields the fallback reviewers but keeps the category itself as the
label. -/
theorem c2_routing_fallback (fs : NotifierFS) (dirs : List String) :
    (notifierRun fs dirs).patterns = dirs.map (assignFor fs) ∧
    (∀ d, getPatternCategory fs d = none →
      assignFor fs d = ⟨d, "unknown", FALLBACK_REVIEWERS⟩) ∧
    (∀ d c, getPatternCategory fs d = some c → SME_MAPPING c = none →
      assignFor fs d = ⟨d, c, FALLBACK_REVIEWERS⟩) := by
  refine ⟨?_, ?_, ?_⟩
  · show (processPatterns initialNotifier fs dirs).patterns = _
    exact processPatterns_patterns fs dirs
  · intro d h
    simp [assignFor, h, getReviewersForCategory]
  · intro d c h1 h2
    simp [assignFor, h1, getReviewersForCategory, h2]

/-- Witness for C2: the amended theorem applied to a concrete filesystem
mixing an absent category, a mapped one and an unmapped one. -/
theorem c2_routing_fallback_witness :
    assignFor c2fsMixed "a" = ⟨"a", "unknown", FALLBACK_REVIEWERS⟩ ∧
    assignFor c2fsMixed "zz" = ⟨"zz", "zzz", FALLBACK_REVIEWERS⟩ ∧
    (notifierRun c2fsMixed ["a", "b", "zz"]).patterns =
      [⟨"a", "unknown", ["pattern-maintainer1", "pattern-maintainer2"]⟩,
       ⟨"b", "security", ["security-sme1", "security-sme2"]⟩,
       ⟨"zz", "zzz", ["pattern-maintainer1", "pattern-maintainer2"]⟩] := by
  have h := c2_routing_fallback c2fsMixed ["a", "b", "zz"]
  exact ⟨h.2.1 "a" (by decide), h.2.2 "zz" "zzz" (by decide) (by decide),
    h.1.trans (by decide)⟩

/-- C2 counterexample: a present but unrecognized category ("custom") is
routed to the fallback reviewers, but the assignment keeps the label
"custom" rather than the sentinel "unknown" the claim requires. -/
theorem c2_counterexample :
    (notifierRun c2fs ["p1"]).patterns =
      [⟨"p1", "custom", ["pattern-maintainer1", "pattern-maintainer2"]⟩] ∧
    ("custom" : String) ≠ "unknown" := by
  refine ⟨?_, ?_⟩ <;> decide

/-- C3 (amended): the aggregate reviewer set of a run is duplicate-free, in
order of first appearance, but it is the union over only those entries whose
category was present in the parsed record; entries routed via fallback
because the category was absent or the record failed to parse contribute
nothing to it. -/
theorem c3_aggregate_reviewers (fs : NotifierFS) (dirs : List String) :
    (notifierRun fs dirs).reviewers = aggReviewers fs dirs ∧
    (notifierRun fs dirs).reviewers.Nodup := by
  have hrev : (notifierRun fs dirs).reviewers = aggReviewers fs dirs := by
    show (processPatterns initialNotifier fs dirs).allReviewers = _
    unfold processPatterns
    by_cases h : dirs.isEmpty
    · rw [List.isEmpty_iff] at h
      rw [h]
      rfl
    · rw [if_neg h, foldl_processOne_allReviewers]
      rfl
  refine ⟨hrev, ?_⟩
  rw [hrev]
  exact aggReviewers_nodup_aux fs dirs [] List.nodup_nil

/-- C3 counterexample: with one entry whose record has no category, the
emitted aggregate reviewer set is empty while the union of the per-entry
assignment reviewer lists is the fallback pair, so the two differ. -/
theorem c3_counterexample :
    (notifierRun c3fs ["p1"]).reviewers = [] ∧
    unionReviewers (notifierRun c3fs ["p1"]).patterns =
      ["pattern-maintainer1", "pattern-maintainer2"] ∧
    (notifierRun c3fs ["p1"]).reviewers ≠ unionReviewers (notifierRun c3fs ["p1"]).patterns := by
  refine ⟨?_, ?_, ?_⟩ <;> decide

/-- C4 (amended): for a successfully parsed, schema-valid record the
cross-reference check reports one error naming the first referenced path
(diagram first, then snippets in order) that does not exist, and stops
there; whenever some reference is dangling the verdict is FAIL. -/
theorem c4_cross_reference (e : Entry) (d : PatternData)
    (h1 : e.yamlExists = true) (h2 : e.yamlParse = Except.ok d)
    (h3 : e.schemaExists = true) (h4 : e.schemaParse = Except.ok ())
    (h5 : e.ajvErrors = []) :
    (validatePatternYaml e =
      match (refsOf d).find? (fun p => !(e.fileExists p)) with
      | none => (true, [])
      | some r => (false, [crossRefMsg d r])) ∧
    (∀ r, (refsOf d).find? (fun p => !(e.fileExists p)) = some r →
      (validate e).exitCode = 1) := by
  have hy : validatePatternYaml e = crossRefCheck e.fileExists d := by
    unfold validatePatternYaml
    simp [h1, h2, h3, h4, h5]
  refine ⟨hy.trans (crossRefCheck_spec e.fileExists d), ?_⟩
  intro r hr
  apply exit_one_of_yaml_errors
  rw [hy, crossRefCheck_spec, hr]
  simp

/-- Witness for C4: the "dangling reference" scenario — exactly one dangling
snippet reference yields exactly that one cross-reference error and a FAIL
exit code. -/
theorem c4_cross_reference_witness :
    validatePatternYaml c4wEntry =
      (false, ["Code snippet file not found: implementation/missing.js"]) ∧
    (validate c4wEntry).exitCode = 1 := by
  have h := c4_cross_reference c4wEntry c4wData rfl rfl rfl rfl rfl
  exact ⟨h.1.trans (by decide), h.2 "implementation/missing.js" (by decide)⟩

/-- C4 counterexample: a record with two dangling snippet references
produces only one cross-reference error, not one per missing path as the
claim requires. -/
theorem c4_counterexample :
    (validatePatternYaml c4entry).snd =
      ["Code snippet file not found: implementation/missing1.js"] ∧
    ((refsOf c4data).filter (fun p => !(c4entry.fileExists p))).length = 2 := by
  refine ⟨?_, ?_⟩ <;> decide

/-- C5 (amended): the exit code is 0 exactly when no errors were recorded
(warnings do not change it) and 1 otherwise; a missing schema registry file
is recorded as a per-entry validation error and also yields exit code 1 —
no distinct exit code exists for it. -/
theorem c5_exit_codes :
    (∀ e : Entry, ((validate e).errors = [] → (validate e).exitCode = 0) ∧
      ((validate e).errors ≠ [] → (validate e).exitCode = 1)) ∧
    (∀ (e : Entry) (d : PatternData), e.yamlExists = true → e.yamlParse = Except.ok d →
      e.schemaExists = false →
      "JSON Schema not found at schemas/pattern-schema.json" ∈ (validate e).errors ∧
      (validate e).exitCode = 1) := by
  constructor
  · intro e
    constructor
    · intro h
      rw [validate_exit, if_pos h]
    · intro h
      rw [validate_exit, if_neg h]
  · intro e d h1 h2 h3
    have hy : validatePatternYaml e =
        (false, ["JSON Schema not found at schemas/pattern-schema.json"]) := by
      unfold validatePatternYaml
      simp [h1, h2, h3]
    constructor
    · rw [validate_errors, hy]
      simp
    · exact exit_one_of_yaml_errors e (by rw [hy]; simp)

/-- Witness for C5: the amended theorem applied to a concrete entry whose
schema registry file is missing. -/
theorem c5_exit_codes_witness :
    "JSON Schema not found at schemas/pattern-schema.json" ∈ (validate c5entry).errors ∧
    (validate c5entry).exitCode = 1 :=
  c5_exit_codes.2 c5entry ⟨some "automation", none, none⟩ rfl rfl rfl

/-- C5 counterexample: with the schema registry missing the process exit
code is 1 — the same code as an ordinary FAIL, not a distinct one — and the
missing schema is recorded among the per-entry validation errors. -/
theorem c5_counterexample :
    (validate c5entry).exitCode = 1 ∧
    "JSON Schema not found at schemas/pattern-schema.json" ∈ (validate c5entry).errors := by
  refine ⟨?_, ?_⟩ <;> decide

/-- C6 (amended): the documentation heuristic check contributes no errors
(the verdict is decided by the other phases alone); for an existing
documentation file it emits exactly the too-short warning when the content
length is below 100 — in that case the section-heading test is skipped —
and otherwise one warning listing all missing recommended sections when any
is absent, and none when all are present. -/
theorem c6_readme_heuristic (e : Entry) (h : e.readmeExists = true) :
    (validate e).errors =
      (validatePatternId e.patternId).snd ++ (validateRequiredFiles e).snd ++
        (validatePatternYaml e).snd ∧
    (validateReadme e).snd =
      (if e.readmeContent.length < 100 then
        ["README.md seems too short. Consider adding more documentation."]
      else if (missingSectionsOf e.readmeContent).isEmpty then []
      else ["README.md is missing recommended sections: " ++
        String.intercalate ", " (missingSectionsOf e.readmeContent)]) := by
  refine ⟨validate_errors e, ?_⟩
  by_cases hlen : e.readmeContent.length < 100
  · simp [validateReadme, h, hlen]
  · have hgoal : validateReadme e =
        (if ¬ (missingSectionsOf e.readmeContent).isEmpty then
          (true, ["README.md is missing recommended sections: " ++
            String.intercalate ", " (missingSectionsOf e.readmeContent)])
        else (true, [])) := by
      dsimp only [validateReadme]
      rw [if_neg (by simp [h]), if_neg hlen]
      rfl
    rw [hgoal, if_neg hlen]
    by_cases hmiss : (missingSectionsOf e.readmeContent).isEmpty
    · rw [if_neg (by simp [hmiss]), if_pos hmiss]
    · rw [if_pos hmiss, if_neg hmiss]

/-- Witness for C6: the amended theorem applied to a concrete entry with a
short README. -/
theorem c6_readme_heuristic_witness :
    (validate c6entry).errors =
      (validatePatternId c6entry.patternId).snd ++ (validateRequiredFiles c6entry).snd ++
        (validatePatternYaml c6entry).snd ∧
    (validateReadme c6entry).snd =
      (if c6entry.readmeContent.length < 100 then
        ["README.md seems too short. Consider adding more documentation."]
      else if (missingSectionsOf c6entry.readmeContent).isEmpty then []
      else ["README.md is missing recommended sections: " ++
        String.intercalate ", " (missingSectionsOf c6entry.readmeContent)]) :=
  c6_readme_heuristic c6entry rfl

/-- C6 counterexample: a README below the length threshold that lacks every
recommended heading receives only the too-short warning; the warning listing
the missing headings required by the claim is never emitted. -/
theorem c6_counterexample :
    (validateReadme c6entry).snd =
      ["README.md seems too short. Consider adding more documentation."] ∧
    missingSectionsOf c6entry.readmeContent = recommendedSections ∧
    ("README.md is missing recommended sections: " ++
      String.intercalate ", " (missingSectionsOf c6entry.readmeContent)) ∉
        (validateReadme c6entry).snd := by
  refine ⟨?_, ?_, ?_⟩ <;> decide

/-- C7: the naming check passes exactly when the final path segment matches
`^[a-z0-9]+(-[a-z0-9]+)*$` (read as: every dash-separated part is non-empty
and lowercase alphanumeric), and a non-matching name produces exactly one
naming error while a matching one produces none. -/
theorem c7_kebab_naming (pid : String) :
    ((validatePatternId pid).fst = true ↔ kebabSpec pid = true) ∧
    (validatePatternId pid).snd.length = (if kebabSpec pid then 0 else 1) := by
  unfold validatePatternId
  rw [kebabCaseTest_eq_spec]
  by_cases h : kebabSpec pid = true
  · simp [h]
  · rw [Bool.not_eq_true] at h
    simp [h]

/-- C8: report generation depends only on the processed entry list — two
notifier states holding the same assignments produce byte-identical comment
text, so regenerating the report over the same processed entries is
idempotent. -/
theorem c8_report_idempotent (s t : NotifierState) (h : s.patterns = t.patterns) :
    generateComment s = generateComment t := by
  unfold generateComment
  rw [h]

/-- Witness for C8: two states differing everywhere except in the processed
assignments yield the same report text. -/
theorem c8_report_idempotent_witness :
    generateComment ⟨["x"], [], c8ps⟩ = generateComment ⟨[], [("automation", [])], c8ps⟩ :=
  c8_report_idempotent ⟨["x"], [], c8ps⟩ ⟨[], [("automation", [])], c8ps⟩ rfl

/-- C9 (amended): a segment is a detected changed entry exactly when it is
the non-empty first segment of some changed file path that survives the
script's path-level denylist greps, is not ".", and is an existing
directory; the output is sorted and duplicate-free; an empty diff yields the
empty output with exit status 0. -/
theorem c9_change_detection (files : List String) (isDir : String → Bool) :
    (∀ s, s ∈ (detectChangedPatterns files isDir).changed_patterns ↔
      (s ≠ "" ∧ s ≠ "." ∧ isDir s = true ∧
        ∃ p, p ∈ files ∧ keepFile p = true ∧ firstSeg p = s)) ∧
    (detectChangedPatterns files isDir).changed_patterns.Pairwise (· ≤ ·) ∧
    (detectChangedPatterns files isDir).changed_patterns.Nodup ∧
    detectChangedPatterns [] isDir = ⟨[], 0, 0⟩ := by
  have hsorted : (patternDirsOf files).Pairwise (· ≤ ·) := by
    unfold patternDirsOf sortU
    exact List.Pairwise.filter _
      (List.Pairwise.sublist (List.dedup_sublist _) (sorted_sortStr _))
  have hnodup : (patternDirsOf files).Nodup := by
    unfold patternDirsOf sortU
    exact List.Nodup.filter _ (List.nodup_dedup _)
  refine ⟨?_, ?_, ?_, rfl⟩
  · intro s
    rw [detect_changed_eq, List.mem_filter, mem_patternDirsOf]
    constructor
    · rintro ⟨⟨hne, p, hp⟩, hcond⟩
      have h12 : isDir s = true ∧ s ≠ "." := by simpa using hcond
      exact ⟨hne, h12.2, h12.1, p, hp⟩
    · rintro ⟨hne, hdot, hdir, p, hp⟩
      exact ⟨⟨hne, p, hp⟩, by simp [hdir, hdot]⟩
  · rw [detect_changed_eq]
    exact List.Pairwise.filter _ hsorted
  · rw [detect_changed_eq]
    exact List.Nodup.filter _ hnodup

/-- C9 counterexample: for the diff `["README.md/foo.js"]` at a head
revision where `README.md` is a directory, the script detects `README.md`
even though its first segment matches the denylist name `README.md` — the
`$`-anchored grep only removes the exact path — so the detected set differs
from the claim's described set, which is empty. -/
theorem c9_counterexample :
    (detectChangedPatterns c9files c9isDir).changed_patterns = ["README.md"] ∧
    claimChangedEntries c9files c9isDir = [] := by
  refine ⟨?_, ?_⟩ <;> decide

/-- C10: a run over zero entries produces no report at all — the comment is
`null`, not an empty checklist-only report — and in general the generator
returns `null` exactly when the processed entry list is empty. -/
theorem c10_empty_run (fs : NotifierFS) (s : NotifierState) :
    (notifierRun fs []).comment = none ∧ (notifierRun fs []).patterns = [] ∧
    (generateComment s = none ↔ s.patterns = []) := by
  refine ⟨rfl, rfl, ?_⟩
  unfold generateComment
  by_cases h : s.patterns.isEmpty
  · rw [if_pos h]
    simp [List.isEmpty_iff.mp h]
  · rw [if_neg h]
    rw [List.isEmpty_iff] at h
    simp [h]

/-- Witness for C3: the aggregate theorem applied to a concrete run; the
entry with an absent category contributes nothing, the mapped and unmapped
ones contribute their reviewers in first-appearance order. -/
theorem c3_aggregate_reviewers_witness :
    (notifierRun c2fsMixed ["a", "b", "zz"]).reviewers =
      aggReviewers c2fsMixed ["a", "b", "zz"] ∧
    aggReviewers c2fsMixed ["a", "b", "zz"] =
      ["security-sme1", "security-sme2", "pattern-maintainer1", "pattern-maintainer2"] :=
  ⟨(c3_aggregate_reviewers c2fsMixed ["a", "b", "zz"]).1, by decide⟩

/-- Witness for C7: the naming theorem applied to a matching and a
non-matching concrete name. -/
theorem c7_kebab_naming_witness :
    (validatePatternId "my-pattern-2").fst = true ∧
    (validatePatternId "My_Pattern").snd.length = 1 := by
  have h1 := c7_kebab_naming "my-pattern-2"
  have h2 := c7_kebab_naming "My_Pattern"
  exact ⟨h1.1.mpr (by decide), h2.2.trans (by decide)⟩

/-- Witness for C9: the membership characterization applied to the concrete
diff, and the empty-diff case. -/
theorem c9_change_detection_witness :
    "README.md" ∈ (detectChangedPatterns c9files c9isDir).changed_patterns ∧
    detectChangedPatterns [] c9isDir = ⟨[], 0, 0⟩ := by
  have h := c9_change_detection c9files c9isDir
  refine ⟨(h.1 "README.md").mpr ?_, h.2.2.2⟩
  exact ⟨by decide, by decide, by decide, "README.md/foo.js", by decide, by decide, by decide⟩

/-- Witness for C10: the empty-run theorem applied to a concrete filesystem
and a concrete non-empty state. -/
theorem c10_empty_run_witness :
    (notifierRun c3fs []).comment = none ∧ (notifierRun c3fs []).patterns = [] ∧
    (generateComment ⟨[], [], c8ps⟩ = none ↔ c8ps = []) :=
  c10_empty_run c3fs ⟨[], [], c8ps⟩
